import Mathlib

/-!
Shallow embedding of the diskmon disk-space/health monitor (Rust sources:
src/main.rs, src/linux/disk_health.rs, src/windows/disk_health.rs,
src/config.rs, src/system.rs).

Strings are modelled by Lean `String` (a list of characters); Rust string
primitives used by the program (`trim`, `to_uppercase`, `contains`,
`starts_with`, `split`, `split_whitespace`, numeric `parse`) are embedded
character by character below.  Floating-point free-space percentages are
modelled by rationals: every comparison the program performs on them is a
strict order comparison, which ℚ models exactly.
-/

namespace Diskmon

/-- Character-wise uppercase, modelling Rust `str::to_uppercase` on the
ASCII device labels the program handles. -/
def upperStr (s : String) : String := ⟨s.data.map Char.toUpper⟩

/-- Strip leading and trailing whitespace from a character list. -/
def trimList (s : List Char) : List Char :=
  ((s.dropWhile Char.isWhitespace).reverse.dropWhile Char.isWhitespace).reverse

/-- Rust `str::trim`. -/
def trimS (s : String) : String := ⟨trimList s.data⟩

/-- Test `strHasPre pat s` : does `s` start with `pat`?  (Rust `str::starts_with`.) -/
def strHasPre : List Char → List Char → Bool
  | [], _ => true
  | _ :: _, [] => false
  | a :: ps, b :: ss => a == b && strHasPre ps ss

/-- Rust `s.starts_with(pat)` on strings. -/
def startsWithS (s pat : String) : Bool := strHasPre pat.data s.data

/-- Test `containsSubList s pat` : does `s` contain `pat` as a contiguous
substring?  (Rust `str::contains` with a string pattern.) -/
def containsSubList : List Char → List Char → Bool
  | [], pat => strHasPre pat []
  | s@(_ :: t), pat => strHasPre pat s || containsSubList t pat

/-- Rust `s.contains(pat)` on strings. -/
def containsS (s pat : String) : Bool := containsSubList s.data pat.data

/-- The specification-side notion of substring: `pat` occurs contiguously
inside `s`. -/
def IsSubstr (pat s : List Char) : Prop := ∃ l r, s = l ++ pat ++ r

/-- Split a character list at every occurrence of `c`
(Rust `str::split(c)`; always returns at least one piece). -/
def splitCharAux (c : Char) : List Char → List Char → List (List Char)
  | [], acc => [acc.reverse]
  | x :: rest, acc =>
    if x == c then acc.reverse :: splitCharAux c rest []
    else splitCharAux c rest (x :: acc)

def splitChar (c : Char) (s : List Char) : List (List Char) := splitCharAux c s []

/-- Rust `split_whitespace`: maximal non-whitespace chunks. -/
def wordsAux : List Char → List Char → List (List Char)
  | [], acc => if acc.isEmpty then [] else [acc.reverse]
  | c :: rest, acc =>
    if c.isWhitespace then
      if acc.isEmpty then wordsAux rest []
      else acc.reverse :: wordsAux rest []
    else wordsAux rest (c :: acc)

def splitWS (s : String) : List String := (wordsAux s.data []).map List.asString

/-- Digit-run value used by numeric parsing. -/
def digitsVal (l : List Char) : Nat := l.foldl (fun a c => a * 10 + (c.toNat - 48)) 0

/-- Rust `str::parse::<u64>()` (optional leading `+`, then decimal digits;
the u64 overflow bound is irrelevant to the properties proved here). -/
def parseNatR (s : String) : Option Nat :=
  let l := match s.data with
    | '+' :: rest => rest
    | other => other
  if l.isEmpty then none
  else if l.all Char.isDigit then some (digitsVal l) else none

/-- Rust `str::parse::<i64>()` (optional sign, then decimal digits). -/
def parseIntR (s : String) : Option Int :=
  match s.data with
  | '-' :: rest =>
      if rest.isEmpty then none
      else if rest.all Char.isDigit then some (-(digitsVal rest : Int)) else none
  | _ => (parseNatR s).map (fun n => (n : Int))

/-- Embedding of `line.split(':').nth(1).unwrap_or("").trim()` from the
smartctl output parser. -/
def afterColon (line : String) : String :=
  trimS ⟨(splitChar ':' line.data).getD 1 []⟩

/-! ## Device resolution (src/linux/disk_health.rs, lines 16-64)

`get_smart_status` first maps the volume's mount point to a device via
`/proc/mounts`, then normalizes the device name to its base device. -/

/-- The eleven-component result tuple of `get_smart_status`
(src/system.rs line 59, src/linux/disk_health.rs line 5). -/
structure SmartTuple where
  smart_status : Option String
  serial_number : Option String
  brand : Option String
  model : Option String
  is_raid : Bool
  power_on_hours : Option Nat
  reallocated_sectors : Option Nat
  temperature : Option Int
  pending_sectors : Option Nat
  uncorrectable_sectors : Option Nat
  health_method : String
  deriving DecidableEq, Repr

/-- The early-return tuple of src/linux/disk_health.rs line 37: every field
absent, RAID flag false, and `health_method` still holding its initial
value `"unknown"` from line 10. -/
def unresolvedTuple : SmartTuple :=
  ⟨none, none, none, none, false, none, none, none, none, none, "unknown"⟩

/-- Scan of `/proc/mounts` lines (disk_health.rs lines 17-29): the first
line whose second whitespace-separated field equals the mount point gives
the device (first field). -/
def findDeviceLoop : List String → String → Option String
  | [], _ => none
  | line :: rest, dn =>
    let parts := splitWS line
    if parts.length ≥ 2 && (parts.getD 1 "" == dn) then some (parts.getD 0 "")
    else findDeviceLoop rest dn

/-- Mount-point → device mapping; `mounts = none` models an unreadable
`/proc/mounts`. -/
def findDeviceForMount (mounts : Option (List String)) (dn : String) : Option String :=
  match mounts with
  | none => none
  | some lines => findDeviceLoop lines dn

/-- The resolution step of `get_smart_status` (disk_health.rs lines 31-39):
a device that resolves and starts with `/dev/` continues into the probe
chain (`Except.ok`), anything else returns `unresolvedTuple` immediately. -/
def resolveDevice (mounts : Option (List String)) (dn : String) : Except SmartTuple String :=
  match findDeviceForMount mounts dn with
  | some device =>
      if startsWithS device "/dev/" then Except.ok device
      else Except.error unresolvedTuple
  | none => Except.error unresolvedTuple

/-! ## Base-device normalization (src/linux/disk_health.rs, lines 46-64) -/

/-- Family-specific partition-suffix stripping exactly as written in the
source: `take_while(|c| !c.is_ascii_digit() || *c == '0')` for `mmcblk`,
`split('p')` first piece for `nvme`, alphabetic run for `sd`/`hd`,
pass-through otherwise. -/
def deviceBase (device_name : String) : String :=
  let name := (splitChar '/' device_name.data).getLastD []
  if strHasPre "mmcblk".data name then
    ⟨"/dev/".data ++ name.takeWhile (fun c => !c.isDigit || c == '0')⟩
  else if strHasPre "nvme".data name then
    ⟨"/dev/".data ++ (splitChar 'p' name).headD []⟩
  else if strHasPre "sd".data name || strHasPre "hd".data name then
    ⟨"/dev/".data ++ name.takeWhile Char.isAlpha⟩
  else device_name

/-! ## Vendor-tool (smartctl) output parsing
(src/linux/disk_health.rs, lines 128-218) -/

/-- Mutable parse state of the smartctl output loop (the `let mut`
variables declared at disk_health.rs lines 70-79 that the loop writes). -/
structure ParseState where
  smart_status : Option String
  serial_number : Option String
  model : Option String
  brand : Option String
  power_on_hours : Option Nat
  reallocated_sectors : Option Nat
  temperature : Option Int
  pending_sectors : Option Nat
  uncorrectable_sectors : Option Nat
  deriving DecidableEq, Repr

def initParseState : ParseState := ⟨none, none, none, none, none, none, none, none, none⟩

/-- One iteration of the line loop (disk_health.rs lines 134-202); the
line is already trimmed.  Each `if` of the source is applied in order to
the running state. -/
def parseLineSm (st : ParseState) (line : String) : ParseState :=
  let st :=
    if containsS line "SMART overall-health self-assessment test result:" then
      { st with smart_status :=
          if containsS line "PASSED" then some "OK"
          else if containsS line "FAILED" then some "FAILING"
          else some "WARNING" }
    else st
  let st :=
    if containsS line "SMART Health Status:" then
      { st with smart_status :=
          if containsS line "OK" then some "OK" else some "WARNING" }
    else st
  let st :=
    if startsWithS line "Device Model:" || startsWithS line "Model Number:" then
      { st with model := some (afterColon line) }
    else st
  let st :=
    if startsWithS line "Serial Number:" then
      { st with serial_number := some (afterColon line) }
    else st
  let st :=
    if startsWithS line "Vendor:" then
      { st with brand := some (afterColon line) }
    else st
  let st :=
    if startsWithS line "Device:" then
      { st with model := some (afterColon line) }
    else st
  let st :=
    if containsS line "Power_On_Hours" then
      match parseNatR (afterColon line) with
      | some v => { st with power_on_hours := some v }
      | none => st
    else st
  let st :=
    if containsS line "Reallocated_Sector_Ct" then
      match parseNatR (afterColon line) with
      | some v => { st with reallocated_sectors := some v }
      | none => st
    else st
  let st :=
    if containsS line "Temperature_Celsius" then
      match parseIntR (afterColon line) with
      | some v => { st with temperature := some v }
      | none => st
    else st
  let st :=
    if containsS line "Current_Pending_Sector" then
      match parseNatR (afterColon line) with
      | some v => { st with pending_sectors := some v }
      | none => st
    else st
  let st :=
    if containsS line "Offline_Uncorrectable" then
      match parseNatR (afterColon line) with
      | some v => { st with uncorrectable_sectors := some v }
      | none => st
    else st
  st

/-- Parse a smartctl output, given as its list of lines
(`output_str.lines()`; each line is trimmed at the top of the loop body). -/
def parseSmartctl (lines : List String) : ParseState :=
  lines.foldl (fun st l => parseLineSm st (trimS l)) initParseState

/-- The stage decision at disk_health.rs lines 205-218: the smartctl stage
returns its result only when it parsed a status, a model or a serial
number (`some st'`, with the status defaulted to OK when device
identification was found without an explicit health line); otherwise the
stage is inconclusive (`none`) and the chain falls through to the kernel
fallbacks. -/
def smartctlStageDecision (st : ParseState) : Option ParseState :=
  if st.smart_status.isSome || st.model.isSome || st.serial_number.isSome then
    some { st with smart_status :=
        (if st.smart_status.isNone && (st.model.isSome || st.serial_number.isSome) then
          some "OK"
        else st.smart_status) }
  else none

/-! ## Disk records and the concurrent collector
(src/main.rs, `get_monitored_disks`, lines 102-313) -/

/-- The seven-component candidate tuple pushed at main.rs line 190. -/
structure Candidate where
  mount_point : String
  display_name : String
  free_space_percent : ℚ
  total_space : Nat
  available_space : Nat
  file_system : String
  disk_name : String
  deriving DecidableEq, Repr

/-- The per-volume record assembled by `get_monitored_disks`
(struct `DiskInfo`, main.rs lines 41-60). -/
structure DiskInfo where
  mount_point : String
  display_name : String
  free_space_percent : ℚ
  total_space : Nat
  available_space : Nat
  file_system : String
  smart_status : Option String
  serial_number : Option String
  brand : Option String
  model : Option String
  is_raid : Bool
  power_on_hours : Option Nat
  reallocated_sectors : Option Nat
  temperature : Option Int
  pending_sectors : Option Nat
  uncorrectable_sectors : Option Nat
  health_method : String
  deriving DecidableEq, Repr

/-- What the race of one collection unit can observe
(main.rs lines 216-228): the blocking probe finished, the task panicked,
or the per-volume timeout elapsed first. -/
inductive ProbeOutcome where
  | completed : SmartTuple → ProbeOutcome
  | panicked : ProbeOutcome
  | timedOut : ProbeOutcome
  deriving DecidableEq, Repr

/-- The tuple substituted for a panicked unit (main.rs line 222). -/
def panicTuple : SmartTuple :=
  ⟨none, none, none, none, false, none, none, none, none, none, "error"⟩

/-- The tuple substituted for a timed-out unit (main.rs line 226). -/
def timeoutTuple : SmartTuple :=
  ⟨none, none, none, none, false, none, none, none, none, none, "timeout"⟩

/-- The `match timeout(...)` classification of one unit
(main.rs lines 216-228). -/
def collectOutcome : ProbeOutcome → SmartTuple
  | .completed r => r
  | .panicked => panicTuple
  | .timedOut => timeoutTuple

/-- Combination of one candidate with its SMART tuple
(main.rs lines 236-255). -/
def mkDiskInfo (c : Candidate) (t : SmartTuple) : DiskInfo :=
  { mount_point := c.mount_point
    display_name := c.display_name
    free_space_percent := c.free_space_percent
    total_space := c.total_space
    available_space := c.available_space
    file_system := c.file_system
    smart_status := t.smart_status
    serial_number := t.serial_number
    brand := t.brand
    model := t.model
    is_raid := t.is_raid
    power_on_hours := t.power_on_hours
    reallocated_sectors := t.reallocated_sectors
    temperature := t.temperature
    pending_sectors := t.pending_sectors
    uncorrectable_sectors := t.uncorrectable_sectors
    health_method := t.health_method }

/-- The record built when health checks are disabled
(main.rs lines 275-294): every health field absent, method `"disabled"`. -/
def disabledDisk (c : Candidate) : DiskInfo :=
  { mount_point := c.mount_point
    display_name := c.display_name
    free_space_percent := c.free_space_percent
    total_space := c.total_space
    available_space := c.available_space
    file_system := c.file_system
    smart_status := none
    serial_number := none
    brand := none
    model := none
    is_raid := false
    power_on_hours := none
    reallocated_sectors := none
    temperature := none
    pending_sectors := none
    uncorrectable_sectors := none
    health_method := "disabled" }

/-- The tail of `get_monitored_disks` (main.rs lines 204-312): when health
checking is enabled the per-volume outcomes (indexed by candidate
position, as `join_all` returns them) are classified and zipped with the
candidates; when disabled no probe runs and every candidate is finalized
with `disabledDisk`. -/
def finalizeDisks (healthEnabled : Bool) (cands : List Candidate)
    (outcomes : List ProbeOutcome) : List DiskInfo :=
  if healthEnabled then
    (cands.zip (outcomes.map collectOutcome)).map (fun p => mkDiskInfo p.1 p.2)
  else
    cands.map disabledDisk

/-- Model of `join_all`'s recombination contract used by the collector:
given the bag of completion events `(origin index, result)` in whatever
order the probes finished, the result for each input position is looked up
by origin index, never by completion rank. -/
def recombineByPos (n : Nat) (events : List (Nat × SmartTuple)) : List (Option SmartTuple) :=
  (List.range n).map (fun i => (events.find? (fun e => e.1 == i)).map (fun e => e.2))

/-! ## Aggregation and the alert decision
(src/main.rs, `send_system_report` lines 315-424 and `main` lines 841-914) -/

/-- Embedding of `disk.free_space_percent < threshold`
(main.rs lines 378, 416, 860). -/
def isLowSpace (threshold : ℚ) (d : DiskInfo) : Bool :=
  decide (d.free_space_percent < threshold)

/-- Embedding of
`disk.smart_status.as_deref().unwrap_or("OK").to_uppercase() != "OK"`
(main.rs lines 380, 418, 861). -/
def isSmartFail (d : DiskInfo) : Bool :=
  !(upperStr (d.smart_status.getD "OK") == "OK")

/-- The fixed-bound SMART attribute warning of the status indicator
(main.rs line 420). -/
def attrWarn (d : DiskInfo) : Bool :=
  decide (d.reallocated_sectors.getD 0 > 0) ||
  decide (d.pending_sectors.getD 0 > 0) ||
  decide (d.uncorrectable_sectors.getD 0 > 0) ||
  decide (d.temperature.getD 0 > 55)

/-- Per-volume status indicator of the report body
(main.rs lines 416-424). -/
def statusIndicator (threshold : ℚ) (d : DiskInfo) : String :=
  if isLowSpace threshold d then "[LOW SPACE]"
  else if isSmartFail d then "[SMART FAILING]"
  else if attrWarn d then "[SMART WARNING]"
  else "[OK]"

/-- Summary count of low-space disks (main.rs line 378). -/
def lowSpaceCount (threshold : ℚ) (disks : List DiskInfo) : Nat :=
  (disks.filter (isLowSpace threshold)).length

/-- Summary count of SMART-failing disks (main.rs lines 379-381). -/
def smartFailingCount (disks : List DiskInfo) : Nat :=
  (disks.filter isSmartFail).length

/-- Summary count of SMART-unknown disks (main.rs line 382). -/
def unknownSmartCount (disks : List DiskInfo) : Nat :=
  (disks.filter (fun d => d.smart_status.isNone)).length

/-- The per-disk problem test of the alert loop (main.rs lines 859-868):
`is_low_space || (smart_enabled && (is_smart_fail || send_on_unknown)) || debug_mode`. -/
def diskProblem (smartEnabled alertUnknown debugMode : Bool) (threshold : ℚ)
    (d : DiskInfo) : Bool :=
  isLowSpace threshold d ||
    (smartEnabled && (isSmartFail d || (alertUnknown && d.smart_status.isNone))) ||
    debugMode

/-- The run-level alert decision (main.rs lines 846-901): the forced path
sends one report unconditionally; otherwise one consolidated report is
sent exactly when some disk is a problem disk. -/
def alertFires (forceMail smartEnabled alertUnknown debugMode : Bool)
    (threshold : ℚ) (disks : List DiskInfo) : Bool :=
  forceMail || disks.any (diskProblem smartEnabled alertUnknown debugMode threshold)

/-- Count `alerts_sent` at the end of the run (main.rs lines 843, 853, 900):
one consolidated report for the whole run, never one per disk. -/
def reportsSent (forceMail smartEnabled alertUnknown debugMode : Bool)
    (threshold : ℚ) (disks : List DiskInfo) : Nat :=
  if alertFires forceMail smartEnabled alertUnknown debugMode threshold disks then 1 else 0

/-! ## Exclusion matching (src/main.rs, lines 162-185) -/

/-- Windows arm of the exclusion test (main.rs lines 162-171): trim the
entry, never match when it is empty, otherwise a case-insensitive
substring test against the display name. -/
def matchesExclusionWin (display_name ex : String) : Bool :=
  let ex := trimS ex
  if ex.data.isEmpty then false
  else containsS (upperStr display_name) (upperStr ex)

/-- Unix arm of the exclusion test (main.rs lines 172-181): trim the
entry, never match when it is empty, otherwise exact equality with the
raw device identifier. -/
def matchesExclusionNix (dev ex : String) : Bool :=
  let ex := trimS ex
  if ex.data.isEmpty then false
  else dev == ex

/-! ## Helper lemmas -/

/-- Correctness of `strHasPre` : it computes the prefix relation. -/
theorem strHasPre_iff (p s : List Char) : strHasPre p s = true ↔ ∃ t, s = p ++ t := by
  induction p generalizing s with
  | nil => simp [strHasPre]
  | cons a ps ih =>
    cases s with
    | nil =>
      simp [strHasPre]
    | cons b ss =>
      simp only [strHasPre, Bool.and_eq_true, beq_iff_eq, ih, List.cons_append,
        List.cons.injEq]
      constructor
      · rintro ⟨rfl, t, rfl⟩
        exact ⟨t, rfl, rfl⟩
      · rintro ⟨t, rfl, rfl⟩
        exact ⟨rfl, t, rfl⟩

/-- Correctness of `containsSubList` : it computes the contiguous-substring
relation. -/
theorem containsSubList_iff (s pat : List Char) :
    containsSubList s pat = true ↔ IsSubstr pat s := by
  induction s with
  | nil =>
    simp only [containsSubList, strHasPre_iff, IsSubstr]
    constructor
    · rintro ⟨t, ht⟩
      exact ⟨[], t, by simpa using ht⟩
    · rintro ⟨l, r, h⟩
      rcases List.append_eq_nil.mp h.symm with ⟨h1, h2⟩
      rcases List.append_eq_nil.mp h1 with ⟨_, h3⟩
      exact ⟨r, by simp [h3, h2]⟩
  | cons c t ih =>
    simp only [containsSubList, Bool.or_eq_true, strHasPre_iff, ih, IsSubstr]
    constructor
    · rintro (⟨u, hu⟩ | ⟨l, r, hr⟩)
      · exact ⟨[], u, by simpa using hu⟩
      · exact ⟨c :: l, r, by simp [hr]⟩
    · rintro ⟨l, r, h⟩
      cases l with
      | nil =>
        exact Or.inl ⟨r, by simpa using h⟩
      | cons a l' =>
        rw [List.cons_append, List.cons_append] at h
        injection h with h1 h2
        exact Or.inr ⟨l', r, by simp [h2]⟩

/-- On any status the probes can actually produce (`none`, `"OK"`,
`"FAILING"`, `"WARNING"`), the code's `!= "OK"` test coincides with
membership in {FAILING, WARNING}. -/
theorem isSmartFail_iff_of_produced (d : DiskInfo)
    (h : d.smart_status = none ∨ d.smart_status = some "OK" ∨
      d.smart_status = some "FAILING" ∨ d.smart_status = some "WARNING") :
    (isSmartFail d = true ↔
      (d.smart_status = some "FAILING" ∨ d.smart_status = some "WARNING")) := by
  rcases h with h | h | h | h <;> simp only [isSmartFail, h] <;> decide

theorem isSmartFail_of_none (d : DiskInfo) (h : d.smart_status = none) :
    isSmartFail d = false := by
  simp only [isSmartFail, h]
  decide

/-! ## Sample records used by the witnesses -/

/-- A disk record with the given free-space percentage and SMART status,
all other health attributes absent. -/
def sampleDisk (pct : ℚ) (st : Option String) : DiskInfo :=
  mkDiskInfo ⟨"/", "/", pct, 100, 50, "ext4", "/dev/sda1"⟩
    ⟨st, none, none, none, false, none, none, none, none, none, "smartmontools"⟩

/-- A disk record additionally carrying SMART attribute readings. -/
def sampleDiskAttrs (pct : ℚ) (st : Option String) (realloc pend unc : Option Nat)
    (temp : Option Int) : DiskInfo :=
  mkDiskInfo ⟨"/", "/", pct, 100, 50, "ext4", "/dev/sda1"⟩
    ⟨st, none, none, none, false, none, realloc, temp, pend, unc, "smartmontools"⟩

/-! ## Claim theorems -/

/-- C1: the alert decision fires (one consolidated report for the whole
run, never per disk — `reportsSent` is at most 1) iff the caller forces
it, or some volume's free-space percentage is strictly below the
threshold, or (SMART checking is enabled and (some volume's status is
FAILING/WARNING, or some volume's status is absent and alert-on-unknown
is enabled)), or debug mode is active.  The run reaches the alert
decision only with a non-empty disk list (main.rs lines 668-672), and the
probes only ever produce the statuses named in `hprod`. -/
theorem alert_decision_iff (forceMail smartEnabled alertUnknown debugMode : Bool)
    (threshold : ℚ) (disks : List DiskInfo) (hne : disks ≠ [])
    (hprod : ∀ d ∈ disks, d.smart_status = none ∨ d.smart_status = some "OK" ∨
      d.smart_status = some "FAILING" ∨ d.smart_status = some "WARNING") :
    ((alertFires forceMail smartEnabled alertUnknown debugMode threshold disks = true) ↔
      (forceMail = true ∨
        (∃ d ∈ disks, d.free_space_percent < threshold) ∨
        (smartEnabled = true ∧
          ((∃ d ∈ disks, d.smart_status = some "FAILING" ∨ d.smart_status = some "WARNING") ∨
            (alertUnknown = true ∧ ∃ d ∈ disks, d.smart_status = none))) ∨
        debugMode = true)) ∧
    reportsSent forceMail smartEnabled alertUnknown debugMode threshold disks ≤ 1 := by
  constructor
  · unfold alertFires diskProblem
    simp only [Bool.or_eq_true, List.any_eq_true, Bool.and_eq_true, isLowSpace,
      decide_eq_true_eq, Option.isNone_iff_eq_none]
    constructor
    · rintro (hf | ⟨d, hd, (hlow | ⟨hse, hfail | ⟨hau, hnone⟩⟩) | hdbg⟩)
      · exact Or.inl hf
      · exact Or.inr (Or.inl ⟨d, hd, hlow⟩)
      · exact Or.inr (Or.inr (Or.inl ⟨hse,
          Or.inl ⟨d, hd, (isSmartFail_iff_of_produced d (hprod d hd)).mp hfail⟩⟩))
      · exact Or.inr (Or.inr (Or.inl ⟨hse, Or.inr ⟨hau, d, hd, hnone⟩⟩))
      · exact Or.inr (Or.inr (Or.inr hdbg))
    · rintro (hf | ⟨d, hd, hlow⟩ | ⟨hse, ⟨d, hd, hFW⟩ | ⟨hau, d, hd, hnone⟩⟩ | hdbg)
      · exact Or.inl hf
      · exact Or.inr ⟨d, hd, Or.inl (Or.inl hlow)⟩
      · exact Or.inr ⟨d, hd, Or.inl (Or.inr ⟨hse,
          Or.inl ((isSmartFail_iff_of_produced d (hprod d hd)).mpr hFW)⟩)⟩
      · exact Or.inr ⟨d, hd, Or.inl (Or.inr ⟨hse, Or.inr ⟨hau, hnone⟩⟩)⟩
      · obtain ⟨d, hd⟩ := List.exists_mem_of_ne_nil disks hne
        exact Or.inr ⟨d, hd, Or.inr hdbg⟩
  · unfold reportsSent
    split <;> omega

/-- Witness for C1 at a concrete run: one FAILING disk with plenty of
space, SMART alerting on. -/
theorem alert_decision_iff_witness :
    ((alertFires false true false false 10 [sampleDisk 50 (some "FAILING")] = true) ↔
      (false = true ∨
        (∃ d ∈ [sampleDisk 50 (some "FAILING")], d.free_space_percent < 10) ∨
        (true = true ∧
          ((∃ d ∈ [sampleDisk 50 (some "FAILING")],
              d.smart_status = some "FAILING" ∨ d.smart_status = some "WARNING") ∨
            (false = true ∧ ∃ d ∈ [sampleDisk 50 (some "FAILING")], d.smart_status = none))) ∨
        false = true)) ∧
    reportsSent false true false false 10 [sampleDisk 50 (some "FAILING")] ≤ 1 :=
  alert_decision_iff false true false false 10 [sampleDisk 50 (some "FAILING")]
    (by decide)
    (by
      intro d hd
      rw [List.mem_singleton] at hd
      subst hd
      exact Or.inr (Or.inr (Or.inl rfl)))

/-- C2: the per-volume status indicator is computed with precedence
highest-first: free space strictly below threshold gives `[LOW SPACE]`;
otherwise SMART status (absent replaced by OK, case-normalized) different
from OK gives `[SMART FAILING]`; otherwise any sector-error count above 0
or temperature above 55 °C gives `[SMART WARNING]`; otherwise `[OK]`. -/
theorem status_indicator_precedence (threshold : ℚ) (d : DiskInfo) :
    (d.free_space_percent < threshold → statusIndicator threshold d = "[LOW SPACE]") ∧
    (¬(d.free_space_percent < threshold) →
      upperStr (d.smart_status.getD "OK") ≠ "OK" →
      statusIndicator threshold d = "[SMART FAILING]") ∧
    (¬(d.free_space_percent < threshold) →
      upperStr (d.smart_status.getD "OK") = "OK" →
      (d.reallocated_sectors.getD 0 > 0 ∨ d.pending_sectors.getD 0 > 0 ∨
        d.uncorrectable_sectors.getD 0 > 0 ∨ d.temperature.getD 0 > 55) →
      statusIndicator threshold d = "[SMART WARNING]") ∧
    (¬(d.free_space_percent < threshold) →
      upperStr (d.smart_status.getD "OK") = "OK" →
      d.reallocated_sectors.getD 0 = 0 → d.pending_sectors.getD 0 = 0 →
      d.uncorrectable_sectors.getD 0 = 0 → d.temperature.getD 0 ≤ 55 →
      statusIndicator threshold d = "[OK]") := by
  refine ⟨?_, ?_, ?_, ?_⟩
  · intro h1
    simp [statusIndicator, isLowSpace, h1]
  · intro h1 h2
    have hf : isSmartFail d = true := by
      simp only [isSmartFail, Bool.not_eq_true']
      exact beq_eq_false_iff_ne.mpr h2
    simp [statusIndicator, isLowSpace, h1, hf]
  · intro h1 h2 h3
    have hf : isSmartFail d = false := by
      simp [isSmartFail, h2]
    have hw : attrWarn d = true := by
      rcases h3 with h | h | h | h <;> simp [attrWarn, h]
    simp [statusIndicator, isLowSpace, h1, hf, hw]
  · intro h1 h2 hr hp hu ht
    have hf : isSmartFail d = false := by
      simp [isSmartFail, h2]
    have hw : attrWarn d = false := by
      simp [attrWarn, hr, hp, hu, not_lt.mpr ht]
    simp [statusIndicator, isLowSpace, h1, hf, hw]

/-- Witness for C2: all four indicator branches at concrete disks. -/
theorem status_indicator_precedence_witness :
    statusIndicator 10 (sampleDisk 5 (some "OK")) = "[LOW SPACE]" ∧
    statusIndicator 10 (sampleDisk 50 (some "FAILING")) = "[SMART FAILING]" ∧
    statusIndicator 10 (sampleDiskAttrs 50 (some "OK") (some 3) none none none) =
      "[SMART WARNING]" ∧
    statusIndicator 10 (sampleDiskAttrs 50 (some "OK") (some 0) (some 0) (some 0) (some 40)) =
      "[OK]" :=
  ⟨(status_indicator_precedence 10 (sampleDisk 5 (some "OK"))).1 (by norm_num [sampleDisk, mkDiskInfo]),
   (status_indicator_precedence 10 (sampleDisk 50 (some "FAILING"))).2.1
     (by norm_num [sampleDisk, mkDiskInfo]) (by decide),
   (status_indicator_precedence 10
       (sampleDiskAttrs 50 (some "OK") (some 3) none none none)).2.2.1
     (by norm_num [sampleDiskAttrs, mkDiskInfo]) (by decide) (by decide),
   (status_indicator_precedence 10
       (sampleDiskAttrs 50 (some "OK") (some 0) (some 0) (some 0) (some 40))).2.2.2
     (by norm_num [sampleDiskAttrs, mkDiskInfo]) (by decide) (by decide) (by decide)
     (by decide) (by decide)⟩

/-- C3 counterexample: a mount table resolving `/` to `tmpfs` (no `/dev/`
prefix) makes the probe return the early tuple, whose recorded collection
method is `"unknown"` — not `"error"` as the claim states. -/
theorem unresolved_method_counterexample :
    resolveDevice (some ["tmpfs / tmpfs rw 0 0"]) "/" = Except.error unresolvedTuple ∧
    unresolvedTuple.smart_status = none ∧
    unresolvedTuple.health_method = "unknown" ∧
    unresolvedTuple.health_method ≠ "error" :=
  ⟨rfl, rfl, rfl, by decide⟩

/-- C3 (amended): when the Linux health probe cannot resolve a volume's
mount point to a device whose path starts with `/dev/`, it returns a
result with every health field absent (UNKNOWN status) and the collection
method still holding its initial value `"unknown"` (the method `"error"`
is reserved for panicked collector units); the run continues for the
other volumes. -/
theorem unresolved_gives_unknown_method (mounts : Option (List String)) (dn : String)
    (t : SmartTuple) (h : resolveDevice mounts dn = Except.error t) :
    t.smart_status = none ∧ t.serial_number = none ∧ t.brand = none ∧ t.model = none ∧
    t.is_raid = false ∧ t.power_on_hours = none ∧ t.reallocated_sectors = none ∧
    t.temperature = none ∧ t.pending_sectors = none ∧ t.uncorrectable_sectors = none ∧
    t.health_method = "unknown" := by
  have ht : t = unresolvedTuple := by
    unfold resolveDevice at h
    split at h
    · split at h
      · exact absurd h (by simp)
      · exact (Except.error.inj h).symm
    · exact (Except.error.inj h).symm
  subst ht
  exact ⟨rfl, rfl, rfl, rfl, rfl, rfl, rfl, rfl, rfl, rfl, rfl⟩

/-- Witness for C3's amended theorem at the counterexample input. -/
theorem unresolved_gives_unknown_method_witness :
    unresolvedTuple.smart_status = none ∧ unresolvedTuple.serial_number = none ∧
    unresolvedTuple.brand = none ∧ unresolvedTuple.model = none ∧
    unresolvedTuple.is_raid = false ∧ unresolvedTuple.power_on_hours = none ∧
    unresolvedTuple.reallocated_sectors = none ∧ unresolvedTuple.temperature = none ∧
    unresolvedTuple.pending_sectors = none ∧ unresolvedTuple.uncorrectable_sectors = none ∧
    unresolvedTuple.health_method = "unknown" :=
  unresolved_gives_unknown_method (some ["tmpfs / tmpfs rw 0 0"]) "/" unresolvedTuple rfl

/-- C4 (claim right, code wrong on the MMC family): evaluating the
base-device normalization.  On `/dev/mmcblk0p1` the code's
`take_while(|c| !c.is_ascii_digit() || *c == '0')` also keeps the
partition separator `p`, producing `/dev/mmcblk0p` instead of the
`/dev/mmcblk0` promised by the claim and by the code's own comments
(disk_health.rs lines 45 and 48); on `/dev/mmcblk1p2` it even stops
before the non-zero digit `1`, producing `/dev/mmcblk`.  The other
families behave as claimed. -/
theorem device_base_eval :
    deviceBase "/dev/mmcblk0p1" = "/dev/mmcblk0p" ∧
    deviceBase "/dev/mmcblk0p1" ≠ "/dev/mmcblk0" ∧
    deviceBase "/dev/mmcblk1p2" = "/dev/mmcblk" ∧
    deviceBase "/dev/mmcblk0" = "/dev/mmcblk0" ∧
    deviceBase "/dev/nvme0n1p1" = "/dev/nvme0n1" ∧
    deviceBase "/dev/nvme0n1" = "/dev/nvme0n1" ∧
    deviceBase "/dev/sda1" = "/dev/sda" ∧
    deviceBase "/dev/hdb2" = "/dev/hdb" ∧
    deviceBase "/dev/loop0" = "/dev/loop0" ∧
    deviceBase "/dev/mapper/vg-root" = "/dev/mapper/vg-root" :=
  ⟨rfl, by decide, rfl, rfl, rfl, rfl, rfl, rfl, rfl, rfl⟩

/-- C5: the collector's outcome classification — a normally completed
unit yields the probe's own tuple; a panicked unit yields the all-absent
tuple with method `"error"`; a timed-out unit the all-absent tuple with
method `"timeout"`; and with health checking disabled no probe outcome is
consulted at all and every volume's record carries absent health fields
with method `"disabled"`. -/
theorem collector_outcome_classification :
    (∀ r : SmartTuple, collectOutcome (.completed r) = r) ∧
    ((collectOutcome .panicked).smart_status = none ∧
      (collectOutcome .panicked).serial_number = none ∧
      (collectOutcome .panicked).brand = none ∧
      (collectOutcome .panicked).model = none ∧
      (collectOutcome .panicked).is_raid = false ∧
      (collectOutcome .panicked).power_on_hours = none ∧
      (collectOutcome .panicked).reallocated_sectors = none ∧
      (collectOutcome .panicked).temperature = none ∧
      (collectOutcome .panicked).pending_sectors = none ∧
      (collectOutcome .panicked).uncorrectable_sectors = none ∧
      (collectOutcome .panicked).health_method = "error") ∧
    ((collectOutcome .timedOut).smart_status = none ∧
      (collectOutcome .timedOut).serial_number = none ∧
      (collectOutcome .timedOut).brand = none ∧
      (collectOutcome .timedOut).model = none ∧
      (collectOutcome .timedOut).is_raid = false ∧
      (collectOutcome .timedOut).power_on_hours = none ∧
      (collectOutcome .timedOut).reallocated_sectors = none ∧
      (collectOutcome .timedOut).temperature = none ∧
      (collectOutcome .timedOut).pending_sectors = none ∧
      (collectOutcome .timedOut).uncorrectable_sectors = none ∧
      (collectOutcome .timedOut).health_method = "timeout") ∧
    (∀ (cands : List Candidate) (outcomes outcomes' : List ProbeOutcome),
      finalizeDisks false cands outcomes = finalizeDisks false cands outcomes') ∧
    (∀ (cands : List Candidate) (outcomes : List ProbeOutcome),
      ∀ d ∈ finalizeDisks false cands outcomes,
        d.smart_status = none ∧ d.serial_number = none ∧ d.power_on_hours = none ∧
        d.reallocated_sectors = none ∧ d.temperature = none ∧ d.pending_sectors = none ∧
        d.uncorrectable_sectors = none ∧ d.health_method = "disabled") := by
  refine ⟨fun r => rfl, ⟨rfl, rfl, rfl, rfl, rfl, rfl, rfl, rfl, rfl, rfl, rfl⟩,
    ⟨rfl, rfl, rfl, rfl, rfl, rfl, rfl, rfl, rfl, rfl, rfl⟩, fun cands o o' => rfl, ?_⟩
  intro cands outcomes d hd
  simp only [finalizeDisks, if_neg (by decide : ¬(false = true)), List.mem_map] at hd
  obtain ⟨c, _, rfl⟩ := hd
  exact ⟨rfl, rfl, rfl, rfl, rfl, rfl, rfl, rfl⟩

/-- Witness for C5 at a concrete disabled-mode run. -/
theorem collector_outcome_classification_witness :
    (sampleDisk 50 (some "OK") ∈
      finalizeDisks false [⟨"/", "/", 50, 100, 50, "ext4", "/dev/sda1"⟩] []) = False ∧
    ((disabledDisk ⟨"/", "/", 50, 100, 50, "ext4", "/dev/sda1"⟩).smart_status = none ∧
      (disabledDisk ⟨"/", "/", 50, 100, 50, "ext4", "/dev/sda1"⟩).serial_number = none ∧
      (disabledDisk ⟨"/", "/", 50, 100, 50, "ext4", "/dev/sda1"⟩).power_on_hours = none ∧
      (disabledDisk ⟨"/", "/", 50, 100, 50, "ext4", "/dev/sda1"⟩).reallocated_sectors = none ∧
      (disabledDisk ⟨"/", "/", 50, 100, 50, "ext4", "/dev/sda1"⟩).temperature = none ∧
      (disabledDisk ⟨"/", "/", 50, 100, 50, "ext4", "/dev/sda1"⟩).pending_sectors = none ∧
      (disabledDisk ⟨"/", "/", 50, 100, 50, "ext4", "/dev/sda1"⟩).uncorrectable_sectors = none ∧
      (disabledDisk ⟨"/", "/", 50, 100, 50, "ext4", "/dev/sda1"⟩).health_method = "disabled") :=
  ⟨by decide,
   (collector_outcome_classification).2.2.2.2
     [⟨"/", "/", 50, 100, 50, "ext4", "/dev/sda1"⟩] []
     (disabledDisk ⟨"/", "/", 50, 100, 50, "ext4", "/dev/sda1"⟩)
     (by decide)⟩

/-- C6: the free-space threshold comparison is strict everywhere it is
applied — a volume exactly at the threshold is not low-space, is not
counted in the summary, never receives the low-space indicator, and can
only become a problem disk through the non-space paths; a volume strictly
below the threshold is low-space, is counted, receives the indicator, and
is a problem disk. -/
theorem threshold_strict (th : ℚ) (d : DiskInfo) (disks : List DiskInfo)
    (se au db : Bool) :
    (d.free_space_percent = th →
      isLowSpace th d = false ∧
      lowSpaceCount th (d :: disks) = lowSpaceCount th disks ∧
      statusIndicator th d ≠ "[LOW SPACE]" ∧
      (diskProblem se au db th d = true →
        (se && (isSmartFail d || (au && d.smart_status.isNone)) || db) = true)) ∧
    (d.free_space_percent < th →
      isLowSpace th d = true ∧
      lowSpaceCount th (d :: disks) = lowSpaceCount th disks + 1 ∧
      statusIndicator th d = "[LOW SPACE]" ∧
      diskProblem se au db th d = true) := by
  constructor
  · intro heq
    have hlow : isLowSpace th d = false := by
      simp [isLowSpace, heq]
    refine ⟨hlow, ?_, ?_, ?_⟩
    · simp [lowSpaceCount, List.filter_cons, hlow]
    · simp only [statusIndicator, hlow, Bool.false_eq_true, if_false]
      split
      · decide
      · split
        · decide
        · decide
    · intro hp
      simp only [diskProblem, hlow, Bool.false_or] at hp
      exact hp
  · intro hlt
    have hlow : isLowSpace th d = true := by
      simp [isLowSpace, hlt]
    refine ⟨hlow, ?_, ?_, ?_⟩
    · simp [lowSpaceCount, List.filter_cons, hlow]
    · simp [statusIndicator, hlow]
    · simp [diskProblem, hlow]

/-- Witness for C6: threshold 10, one disk exactly at 10 % and one at 9 %. -/
theorem threshold_strict_witness :
    (isLowSpace 10 (sampleDisk 10 (some "OK")) = false ∧
      lowSpaceCount 10 [sampleDisk 10 (some "OK")] = lowSpaceCount 10 [] ∧
      statusIndicator 10 (sampleDisk 10 (some "OK")) ≠ "[LOW SPACE]" ∧
      (diskProblem true false false 10 (sampleDisk 10 (some "OK")) = true →
        (true && (isSmartFail (sampleDisk 10 (some "OK")) ||
          (false && (sampleDisk 10 (some "OK")).smart_status.isNone)) || false) = true)) ∧
    (isLowSpace 10 (sampleDisk 9 (some "OK")) = true ∧
      lowSpaceCount 10 [sampleDisk 9 (some "OK")] = lowSpaceCount 10 [] + 1 ∧
      statusIndicator 10 (sampleDisk 9 (some "OK")) = "[LOW SPACE]" ∧
      diskProblem true false false 10 (sampleDisk 9 (some "OK")) = true) :=
  ⟨(threshold_strict 10 (sampleDisk 10 (some "OK")) [] true false false).1
     (by norm_num [sampleDisk, mkDiskInfo]),
   (threshold_strict 10 (sampleDisk 9 (some "OK")) [] true false false).2
     (by norm_num [sampleDisk, mkDiskInfo])⟩

/-- C7: exclusion matching is asymmetric by platform — the drive-letter
arm is a case-insensitive substring test against the display label (here
characterized through the specification-side substring relation
`IsSubstr`), the device-path arm is exact equality with the raw device
identifier, and an entry that trims to empty never matches. -/
theorem exclusion_matching (disp dev ex : String) :
    (trimS ex = "" →
      matchesExclusionWin disp ex = false ∧ matchesExclusionNix dev ex = false) ∧
    (trimS ex ≠ "" →
      ((matchesExclusionWin disp ex = true ↔
        IsSubstr (upperStr (trimS ex)).data (upperStr disp).data) ∧
       (matchesExclusionNix dev ex = true ↔ dev = trimS ex))) ∧
    matchesExclusionWin "Drive C: Games" "c:" = true ∧
    matchesExclusionWin "drive c: games" "C:" = true ∧
    matchesExclusionNix "sda1" "sda" = false ∧
    matchesExclusionNix "sda" "sda" = true := by
  refine ⟨?_, ?_, by decide, by decide, by decide, by decide⟩
  · intro h
    constructor <;> simp [matchesExclusionWin, matchesExclusionNix, h]
  · intro h
    have hne : (trimS ex).data.isEmpty = false := by
      cases hq : (trimS ex).data.isEmpty
      · rfl
      · exact absurd (String.ext_iff.mpr ((List.isEmpty_iff.mp hq).trans rfl)) h
    constructor
    · simp only [matchesExclusionWin, hne, Bool.false_eq_true, if_false, containsS]
      exact containsSubList_iff _ _
    · simp only [matchesExclusionNix, hne, Bool.false_eq_true, if_false, beq_iff_eq]

/-- Witness for C7 at concrete entries: a whitespace-only entry matches
nothing; `"c:"` matches a display label containing `C:` only up to case;
`"sda"` matches the device `sda` exactly and nothing else. -/
theorem exclusion_matching_witness :
    (matchesExclusionWin "Drive C: Games" " " = false ∧
      matchesExclusionNix "sda" " " = false) ∧
    (matchesExclusionWin "Drive C: Games" "c:" = true ↔
      IsSubstr (upperStr (trimS "c:")).data (upperStr "Drive C: Games").data) ∧
    (matchesExclusionNix "sda1" "sda" = true ↔ "sda1" = trimS "sda") :=
  ⟨(exclusion_matching "Drive C: Games" "sda" " ").1 (by decide),
   ((exclusion_matching "Drive C: Games" "sda1" "c:").2.1 (by decide)).1,
   ((exclusion_matching "Drive C: Games" "sda1" "sda").2.1 (by decide)).2⟩

/-- C8 counterexample: a vendor-tool output consisting of the single line
`Reallocated_Sector_Ct: 5` parses into a state with SMART attribute data
(`reallocated_sectors = 5`) and no health self-assessment line, yet the
stage returns `none` (inconclusive, falling through to the kernel
fallbacks) rather than a status defaulted to OK: the default requires a
model or serial number, not attribute data. -/
theorem attributes_no_ident_counterexample :
    (parseSmartctl ["Reallocated_Sector_Ct: 5"]).reallocated_sectors = some 5 ∧
    (parseSmartctl ["Reallocated_Sector_Ct: 5"]).smart_status = none ∧
    (parseSmartctl ["Reallocated_Sector_Ct: 5"]).model = none ∧
    (parseSmartctl ["Reallocated_Sector_Ct: 5"]).serial_number = none ∧
    smartctlStageDecision (parseSmartctl ["Reallocated_Sector_Ct: 5"]) = none :=
  ⟨rfl, rfl, rfl, rfl, rfl⟩

/-- C8 (amended): in the vendor-tool probe stage, whenever the parsed
output contains device identification data (a model or serial number) but
no explicit health self-assessment line, the returned status defaults to
OK rather than being left absent; attribute data alone leaves the stage
inconclusive. -/
theorem ident_without_health_defaults_ok (lines : List String)
    (hstatus : (parseSmartctl lines).smart_status = none)
    (hident : ((parseSmartctl lines).model.isSome ||
      (parseSmartctl lines).serial_number.isSome) = true) :
    smartctlStageDecision (parseSmartctl lines) =
      some { parseSmartctl lines with smart_status := some "OK" } := by
  unfold smartctlStageDecision
  simp [hstatus, hident]

/-- Witness for C8's amended theorem: an output carrying only a serial
number yields the defaulted OK status. -/
theorem ident_without_health_defaults_ok_witness :
    smartctlStageDecision (parseSmartctl ["Serial Number: ABC123"]) =
      some { parseSmartctl ["Serial Number: ABC123"] with smart_status := some "OK" } :=
  ident_without_health_defaults_ok ["Serial Number: ABC123"] rfl rfl

/-- C9: the collector recombines probe results with their originating
volumes by list position — the final list has exactly one record per
candidate, the `i`-th record is built from the `i`-th candidate and the
`i`-th outcome, and (modelling `join_all`'s contract) recombining any
permutation of the completion events by origin index yields the same
per-position results regardless of which probe finished first. -/
theorem positional_recombination (cands : List Candidate) (outcomes : List ProbeOutcome)
    (hlen : outcomes.length = cands.length) :
    (finalizeDisks true cands outcomes).length = cands.length ∧
    (∀ (i : Nat), i < cands.length → ∀ ho : i < outcomes.length,
      ∀ hf : i < (finalizeDisks true cands outcomes).length,
      (finalizeDisks true cands outcomes)[i] =
        mkDiskInfo cands[i] (collectOutcome outcomes[i])) ∧
    (∀ (n : Nat) (f : Nat → SmartTuple) (events : List (Nat × SmartTuple)),
      events.Perm ((List.range n).map (fun i => (i, f i))) →
      recombineByPos n events = (List.range n).map (fun i => some (f i))) := by
  refine ⟨?_, ?_, ?_⟩
  · simp [finalizeDisks, List.length_zip, hlen]
  · intro i hi ho hf
    simp [finalizeDisks, List.getElem_map, List.getElem_zip]
  · intro n f events hperm
    unfold recombineByPos
    refine List.map_congr_left ?_
    intro i hi
    rw [List.mem_range] at hi
    have hmem : (i, f i) ∈ events :=
      hperm.mem_iff.mpr (List.mem_map.mpr ⟨i, List.mem_range.mpr hi, rfl⟩)
    have hsome : (events.find? (fun e => e.1 == i)).isSome = true :=
      List.find?_isSome.mpr ⟨(i, f i), hmem, by simp⟩
    obtain ⟨a, ha⟩ := Option.isSome_iff_exists.mp hsome
    have hkey : a.1 = i := by simpa using List.find?_some ha
    have hgraph : a ∈ (List.range n).map (fun i => (i, f i)) :=
      hperm.mem_iff.mp (List.mem_of_find?_eq_some ha)
    obtain ⟨j, _, hja⟩ := List.mem_map.mp hgraph
    rw [ha]
    subst hja
    simp only at hkey
    subst hkey
    rfl

/-- Sample tuples and candidates for the C9 witness. -/
def tupleA : SmartTuple :=
  ⟨some "OK", none, none, none, false, none, none, none, none, none, "smartmontools"⟩

def tupleB : SmartTuple :=
  ⟨some "WARNING", none, none, none, false, none, none, none, none, none, "kernel"⟩

def candA : Candidate := ⟨"/", "/", 50, 100, 50, "ext4", "/dev/sda1"⟩

def candB : Candidate := ⟨"/home", "/home", 30, 200, 60, "ext4", "/dev/sdb1"⟩

/-- Witness for C9: two candidates whose completion events arrive in
reversed order still recombine positionally. -/
theorem positional_recombination_witness :
    (finalizeDisks true [candA, candB]
      [ProbeOutcome.timedOut, ProbeOutcome.completed tupleA]).length = 2 ∧
    (finalizeDisks true [candA, candB]
      [ProbeOutcome.timedOut, ProbeOutcome.completed tupleA]).get ⟨1, by decide⟩ =
      mkDiskInfo candB (collectOutcome (ProbeOutcome.completed tupleA)) ∧
    recombineByPos 2 [(1, tupleB), (0, tupleA)] = [some tupleA, some tupleB] := by
  have h := positional_recombination [candA, candB]
    [ProbeOutcome.timedOut, ProbeOutcome.completed tupleA] rfl
  refine ⟨h.1, ?_, ?_⟩
  · exact h.2.1 1 (by decide) (by decide) (by decide)
  · have h3 := h.2.2 2 (fun i => if i = 0 then tupleA else tupleB)
      [(1, tupleB), (0, tupleA)] (by decide)
    exact h3.trans (by decide)

/-- C10: a disk whose SMART status is absent is substituted with OK
before every status comparison — it is never SMART-failing, never counted
in the summary's SMART-failing count, and becomes a problem disk exactly
through low space, (SMART enabled and alert-on-unknown), or debug mode. -/
theorem unknown_status_ok_substitution (d : DiskInfo) (h : d.smart_status = none)
    (se au db : Bool) (th : ℚ) (disks : List DiskInfo) :
    isSmartFail d = false ∧
    smartFailingCount (d :: disks) = smartFailingCount disks ∧
    diskProblem se au db th d = (isLowSpace th d || (se && au) || db) := by
  have hf := isSmartFail_of_none d h
  refine ⟨hf, ?_, ?_⟩
  · simp [smartFailingCount, List.filter_cons, hf]
  · simp [diskProblem, hf, h]

/-- Witness for C10 at a concrete absent-status disk. -/
theorem unknown_status_ok_substitution_witness :
    isSmartFail (sampleDisk 50 none) = false ∧
    smartFailingCount [sampleDisk 50 none] = smartFailingCount [] ∧
    diskProblem true true false 10 (sampleDisk 50 none) =
      (isLowSpace 10 (sampleDisk 50 none) || (true && true) || false) :=
  unknown_status_ok_substitution (sampleDisk 50 none) rfl true true false 10 []

end Diskmon
